import Mathlib

/-
Verification of the order-taking chatbot core (chatbot_backend).

The dialogue orchestration engine lives in chatbot_backend/agent/langgraph.py:
the order-info slot snapshot is a Python dict mapping field names to values
(None, strings, or ints); the nodes `extract_info`, `search_book_info`,
`check_missing_info`, `follow_up_question` and `confirm_order` read and
mutate it.  We embed the snapshot as an insertion-ordered association list
over a small Python-value type, and each node as a Lean function translated
from the source.  External collaborators (the LLM extractor and the book
database behind `search_book_func`) are parameters: the extractor's result
is an `OrderInfo` value, and the Book Lookup's filtered result is the list
of matching `Book` rows.
-/

namespace Goline

/-- A Python runtime value as stored in the order-info dict: `None`, a
string, or an int.  (The snapshot fields only ever hold these.) -/
inductive PyVal where
  | null : PyVal
  | str : String → PyVal
  | int : Int → PyVal
deriving DecidableEq, Repr

/-- The order-info snapshot: a Python dict, i.e. an insertion-ordered
association list from field names to values. -/
abbrev Slots := List (String × PyVal)

/-- Python dict read `d[k]` / `k in d`: first (and in a real dict, only)
binding of the key. -/
def dlookup {α : Type} : List (String × α) → String → Option α
  | [], _ => none
  | kv :: rest, k => if kv.1 = k then some kv.2 else dlookup rest k

/-- Python `d.get(k, default)`. -/
def pyget (s : Slots) (k : String) (d : PyVal) : PyVal :=
  (dlookup s k).getD d

/-- Python dict assignment `d[k] = v`: update in place if the key exists
(keeping its position), otherwise append at the end. -/
def dset : Slots → String → PyVal → Slots
  | [], k, v => [(k, v)]
  | kv :: rest, k, v => if kv.1 = k then (k, v) :: rest else kv :: dset rest k v

/-- The missing-value test from langgraph.py (both `check_missing_info` and
`follow_up_question` use it verbatim):
`value is None or value == "" or value == "None"`. -/
def isMissingVal (v : PyVal) : Bool :=
  v = PyVal.null || v = PyVal.str "" || v = PyVal.str "None"

/-- The missing-field loop shared verbatim by `check_missing_info`
(lines 79-82) and `follow_up_question` (lines 93-96): iterate over the
fields present in the dict, in insertion order, and collect those whose
value is `None`, `""` or `"None"`. -/
def missing_fields (s : Slots) : List String :=
  (s.filter (fun kv => isMissingVal kv.2)).map Prod.fst

/-- `search_fields` list from `Agent.check_missing_info`. -/
def search_fields : List String :=
  ["book_id", "author", "genre", "category", "book_title_in_db"]

/-- `personal_info_fields` list from `Agent.check_missing_info`. -/
def personal_info_fields : List String :=
  ["customer_name", "phone", "address", "quantity"]

/-- `Agent.check_missing_info`: compute the missing fields, then route to
`search_book_info` if any search field is missing, else to
`follow_up_question` if any personal field is missing, else to
`confirm_order`. -/
def check_missing_info (s : Slots) : String :=
  let missing_info := missing_fields s
  if search_fields.any (fun f => missing_info.contains f) then "search_book_info"
  else if personal_info_fields.any (fun f => missing_info.contains f) then "follow_up_question"
  else "confirm_order"

/-- Python truthiness for the values a slot can hold (`if book_title and
book_title_in_db:`): `None` is falsy, a string is truthy iff non-empty, an
int is truthy iff non-zero. -/
def truthy : PyVal → Bool
  | PyVal.null => false
  | PyVal.str s => s ≠ ""
  | PyVal.int n => n ≠ 0

/-- Python `str(v)` as used by f-string interpolation. -/
def pyStr : PyVal → String
  | PyVal.null => "None"
  | PyVal.str s => s
  | PyVal.int n => toString n

/-- The guard of the disambiguation special case in
`Agent.follow_up_question`: `book_title` and `book_title_in_db` are read
with `.get(field, "")`, both must be truthy, and they must differ. -/
def disambigApplies (s : Slots) : Bool :=
  let book_title := pyget s "book_title" (PyVal.str "")
  let book_title_in_db := pyget s "book_title_in_db" (PyVal.str "")
  truthy book_title && truthy book_title_in_db &&
    decide (¬ book_title = book_title_in_db)

/-- The static `question_map` table from `Agent.follow_up_question`. -/
def question_map : List (String × String) :=
  [("book_title", "Bạn muốn đặt mua cuốn sách nào?"),
   ("quantity", "Bạn muốn đặt bao nhiêu cuốn?"),
   ("customer_name", "Bạn có thể cho tôi biết tên của bạn được không?"),
   ("phone", "Số điện thoại của bạn là gì?"),
   ("address", "Bạn có thể cung cấp địa chỉ giao hàng được không?")]

/-- `Agent.follow_up_question`: recompute the missing fields; if the
disambiguation guard fires, return the question quoting
`book_title_in_db`; otherwise look up the question for `missing_info[0]`.
The result is `none` when the Python code would raise: `missing_info[0]`
on an empty list (IndexError) or `question_map[...]` on a key outside the
table (KeyError). -/
def follow_up_question (s : Slots) : Option String :=
  let missing_info := missing_fields s
  if disambigApplies s then
    some ("Có phải ý bạn là cuốn \x27" ++
      pyStr (pyget s "book_title_in_db" (PyVal.str "")) ++ "\x27 không?")
  else
    match missing_info with
    | [] => none
    | f :: _ => dlookup question_map f

/-- Constant pieces of the `confirm_order` f-string template (the text
between the interpolated slot values, braces and indentation exactly as in
the source). -/
def confirmP1 : String := "\n        <confirm>\x7b\n        book_title: \""

/-- Template text between `book_title` and `quantity`. -/
def confirmP2 : String := "\",\n        quantity: \""

/-- Template text between `quantity` and `customer_name`. -/
def confirmP3 : String := "\",\n        customer_name: \""

/-- Template text between `customer_name` and `phone`. -/
def confirmP4 : String := "\",\n        phone: \""

/-- Template text between `phone` and `address`. -/
def confirmP5 : String := "\",\n        address: \""

/-- Template text closing the payload after `address`. -/
def confirmP6 : String := "\"\n                    \x7d</confirm>"

/-- `Agent.confirm_order`: render the fixed tagged template, interpolating
`info.get(field, "")` through Python `str()` for the five fields, in the
literal order of the source. -/
def confirm_order (s : Slots) : String :=
  confirmP1 ++ pyStr (pyget s "book_title" (PyVal.str "")) ++
  confirmP2 ++ pyStr (pyget s "quantity" (PyVal.str "")) ++
  confirmP3 ++ pyStr (pyget s "customer_name" (PyVal.str "")) ++
  confirmP4 ++ pyStr (pyget s "phone" (PyVal.str "")) ++
  confirmP5 ++ pyStr (pyget s "address" (PyVal.str "")) ++
  confirmP6

/-- The `OrderInfo` pydantic model (agent/structured_output.py): the slot
extractor's structured output. -/
structure OrderInfo where
  book_title : Option String
  quantity : Int
  customer_name : Option String
  phone : Option String
  address : Option String
deriving DecidableEq, Repr

/-- An optional string field of `OrderInfo`, as the Python value it
contributes to `response.dict()`. -/
def optVal : Option String → PyVal
  | none => PyVal.null
  | some s => PyVal.str s

/-- `response.dict()` for an `OrderInfo`: a dict with exactly the five
declared fields, in declaration order. -/
def orderInfoDict (r : OrderInfo) : Slots :=
  [("book_title", optVal r.book_title),
   ("quantity", PyVal.int r.quantity),
   ("customer_name", optVal r.customer_name),
   ("phone", optVal r.phone),
   ("address", optVal r.address)]

/-- `Agent.extract_info`: `state["order_info"] = response.dict()` — the
whole snapshot is replaced by the extractor's output; the prior snapshot
is discarded. -/
def extract_info (_prior : Slots) (response : OrderInfo) : Slots :=
  orderInfoDict response

/-- A book row as returned by the repository (database layer is external;
`price` amounts are integral VND in this model, and no claim reads it). -/
structure Book where
  book_id : Int
  title : String
  author : String
  price : Int
  stock : Int
  category : String
deriving DecidableEq, Repr

/-- The `book_data` dict built for each filtered book in
`search_book_func` (agent/tools.py lines 123-133): keys `book_id`,
`title`, `author`, `price`, `stock`, `category`, `availability`. -/
def mkBookData (b : Book) : List (String × PyVal) :=
  [("book_id", PyVal.int b.book_id),
   ("title", PyVal.str b.title),
   ("author", PyVal.str b.author),
   ("price", PyVal.int b.price),
   ("stock", PyVal.int b.stock),
   ("category", PyVal.str b.category),
   ("availability", PyVal.str (if b.stock > 0 then "In Stock" else "Out of Stock"))]

/-- The result dict of `search_book_func` (agent/tools.py lines 116-137). -/
structure SearchResult where
  status : String
  total_found : Int
  books : List (List (String × PyVal))
deriving Repr

/-- The result-building tail of `search_book_func` (agent/tools.py lines
116-137), parameterised by the `filtered_books` list (the database query
and its filters are the external Book Lookup collaborator): a `success`
dict holding one `book_data` per filtered book, or Python `None` if the
list is empty. -/
def search_book_func (filtered_books : List Book) : Option SearchResult :=
  if filtered_books.isEmpty then none
  else some ⟨"success", Int.ofNat filtered_books.length, filtered_books.map mkBookData⟩

/-- Python `book.get(k)` on a book-data dict: default `None`. -/
def bget (b : List (String × PyVal)) (k : String) : PyVal :=
  (dlookup b k).getD PyVal.null

/-- `Agent.search_book_info`: call the lookup, take
`search["books"][0]` when the result is truthy and its `books` list is
non-empty; on success assign `book.get("id")`, `book.get("author")`,
`book.get("genre")`, `book.get("category")`, `book.get("availability")`,
`book.get("title")` into the six resolution slots; otherwise set
`book_id`, `author`, `genre`, `category` to `None`. -/
def search_book_info (s : Slots) (filtered_books : List Book) : Slots :=
  let search := search_book_func filtered_books
  let book : Option (List (String × PyVal)) :=
    match search with
    | some r => if r.books.isEmpty then none else r.books.head?
    | none => none
  match book with
  | some b =>
      dset (dset (dset (dset (dset (dset s "book_id" (bget b "id"))
        "author" (bget b "author")) "genre" (bget b "genre"))
        "category" (bget b "category")) "availability" (bget b "availability"))
        "book_title_in_db" (bget b "title")
  | none =>
      dset (dset (dset (dset s "book_id" PyVal.null)
        "author" PyVal.null) "genre" PyVal.null) "category" PyVal.null

/-- The fresh `order_info` dict built in `Agent.run` (langgraph.py lines
166-175): exactly these eight keys, in this order (note: no `genre`, no
`book_title_in_db`, no `availability`). -/
def runInitOrderInfo : Slots :=
  [("book_title", PyVal.null),
   ("quantity", PyVal.int 1),
   ("customer_name", PyVal.null),
   ("phone", PyVal.null),
   ("address", PyVal.null),
   ("book_id", PyVal.null),
   ("author", PyVal.null),
   ("category", PyVal.null)]

/-- The snapshots the graph's own nodes can produce: the `run`
initializer, the extractor's full replacement, and `search_book_info`
applied to a producible snapshot (for any lookup outcome). -/
inductive ReachableSlots : Slots → Prop where
  | init : ReachableSlots runInitOrderInfo
  | extract (s : Slots) (r : OrderInfo) :
      ReachableSlots s → ReachableSlots (extract_info s r)
  | search (s : Slots) (bs : List Book) :
      ReachableSlots s → ReachableSlots (search_book_info s bs)

/-- Modelled from the spec: the `State` schema (agent/state.py) and the
LangGraph checkpointer that give each conversation id its persistent
state are not under src/.  The spec's Session Store (§4.1, §2): per
conversation id, load the stored snapshot or create it with the default
slots on the first turn for an unseen id; the turn's nodes then mutate the
loaded snapshot, and the result is committed once at the end of the
turn. -/
def SessionStore := String → Option Slots

/-- Modelled from the spec: `load(id)` — return the stored snapshot, or
the default slots for an unseen id. -/
def loadOrCreate (store : SessionStore) (id : String) : Slots :=
  (store id).getD runInitOrderInfo

/-- Modelled from the spec: `save(id, slots)` — commit the turn's final
snapshot for this id, leaving other ids untouched. -/
def commitSlots (store : SessionStore) (id : String) (s : Slots) : SessionStore :=
  fun j => if j = id then some s else store j

/-- Modelled from the spec: one turn-processing run — load-or-create the
session's snapshot, run the turn's node pipeline on it, commit the
result. -/
def processTurn (store : SessionStore) (id : String) (nodes : Slots → Slots) :
    SessionStore :=
  commitSlots store id (nodes (loadOrCreate store id))

/-- The five keys of the extractor's output, in declaration order; also
exactly the keys of `question_map`. -/
def extractor_fields : List String :=
  ["book_title", "quantity", "customer_name", "phone", "address"]

/-- Extractor result in which the user supplied every personal detail in
one message. -/
def c1CounterInfo : OrderInfo :=
  ⟨some "Đắc Nhân Tâm", 1, some "Nam", some "0901234567", some "Hà Nội"⟩

/-- Snapshot right after `extract_info` replaces the slots with
`c1CounterInfo`: every personal field filled, every search field absent
from the dict. -/
def c1CounterSlots : Slots :=
  extract_info runInitOrderInfo c1CounterInfo

/-- Extractor result carrying only a book title. -/
def c2Info : OrderInfo := ⟨some "Python", 1, none, none, none⟩

/-- Snapshot right after extraction of `c2Info`. -/
def c2Slots : Slots := extract_info runInitOrderInfo c2Info

/-- A concrete matching inventory row for the title "Python". -/
def c2Book : Book :=
  ⟨7, "Lập trình Python cơ bản", "Nguyễn Văn A", 150000, 3, "Lập trình"⟩

/-- A snapshot that already carries a resolved `book_title_in_db` from an
earlier successful lookup. -/
def c3CounterSlots : Slots :=
  [("book_title", PyVal.str "Đắc Nhân Tâm"),
   ("quantity", PyVal.int 1),
   ("customer_name", PyVal.str "Nam"),
   ("phone", PyVal.str "0901234567"),
   ("address", PyVal.str "Hà Nội"),
   ("book_title_in_db", PyVal.str "Đắc Nhân Tâm")]

/-- A snapshot with `book_id` absent as a key and every present field
filled (the post-extraction shape with all personal details supplied). -/
def c4CounterSlots : Slots :=
  [("book_title", PyVal.str "Python"),
   ("quantity", PyVal.int 2),
   ("customer_name", PyVal.str "Lan"),
   ("phone", PyVal.str "0912345678"),
   ("address", PyVal.str "Đà Nẵng")]

/-- A snapshot exercising all three sentinel forms at once. -/
def c4WitnessSlots : Slots :=
  [("book_title", PyVal.str "None"),
   ("quantity", PyVal.int 1),
   ("customer_name", PyVal.null),
   ("phone", PyVal.str ""),
   ("address", PyVal.str "Huế")]

/-- A snapshot routed to the follow-up generator whose `book_title` holds
the sentinel string `"None"`: resolved search fields, missing
`customer_name`, and a resolved title differing from `book_title`. -/
def c4NoneTitleSlots : Slots :=
  [("book_title", PyVal.str "None"),
   ("quantity", PyVal.int 1),
   ("customer_name", PyVal.null),
   ("phone", PyVal.str "0901234567"),
   ("address", PyVal.str "Hà Nội"),
   ("book_id", PyVal.int 7),
   ("author", PyVal.str "Dale Carnegie"),
   ("genre", PyVal.str "Self-help"),
   ("category", PyVal.str "Kỹ năng sống"),
   ("book_title_in_db", PyVal.str "Đắc Nhân Tâm")]

/-- The same snapshot with `book_title` holding the empty-string sentinel
instead of `"None"`; no other entry differs. -/
def c4EmptyTitleSlots : Slots :=
  [("book_title", PyVal.str ""),
   ("quantity", PyVal.int 1),
   ("customer_name", PyVal.null),
   ("phone", PyVal.str "0901234567"),
   ("address", PyVal.str "Hà Nội"),
   ("book_id", PyVal.int 7),
   ("author", PyVal.str "Dale Carnegie"),
   ("genre", PyVal.str "Self-help"),
   ("category", PyVal.str "Kỹ năng sống"),
   ("book_title_in_db", PyVal.str "Đắc Nhân Tâm")]

/-- A concrete turn pipeline for the session-store witness: the turn fills
in the phone slot. -/
def c6Nodes (s : Slots) : Slots := dset s "phone" (PyVal.str "0901234567")

/-- A snapshot whose insertion order puts `address` before `phone`, both
missing, with every search field present and resolved and the two title
fields equal (so the disambiguation case does not apply). -/
def c7CounterSlots : Slots :=
  [("address", PyVal.null),
   ("phone", PyVal.null),
   ("book_title", PyVal.str "Đắc Nhân Tâm"),
   ("quantity", PyVal.int 1),
   ("customer_name", PyVal.str "Nam"),
   ("book_id", PyVal.int 7),
   ("author", PyVal.str "Dale Carnegie"),
   ("genre", PyVal.str "Self-help"),
   ("category", PyVal.str "Kỹ năng sống"),
   ("book_title_in_db", PyVal.str "Đắc Nhân Tâm")]

/-- Tail of the witness snapshot for the follow-up question: resolved
search fields, none missing, titles equal. -/
def c7WitnessRest : List (String × PyVal) :=
  [("book_id", PyVal.int 7),
   ("author", PyVal.str "Dale Carnegie"),
   ("genre", PyVal.str "Self-help"),
   ("category", PyVal.str "Kỹ năng sống"),
   ("book_title_in_db", PyVal.str "Đắc Nhân Tâm")]

/-- Canonical-order snapshot with `customer_name` the first missing field. -/
def c7WitnessSlots : Slots :=
  ("book_title", PyVal.str "Đắc Nhân Tâm") :: ("quantity", PyVal.int 1) ::
  ("customer_name", PyVal.null) :: ("phone", PyVal.null) ::
  ("address", PyVal.str "Hà Nội") :: c7WitnessRest

/-- Snapshot in which the stored title and the resolved title differ and
personal fields are still missing. -/
def c8WitnessSlots : Slots :=
  [("book_title", PyVal.str "Python"),
   ("quantity", PyVal.int 1),
   ("customer_name", PyVal.null),
   ("phone", PyVal.null),
   ("address", PyVal.null),
   ("book_id", PyVal.int 7),
   ("author", PyVal.str "Nguyễn Văn A"),
   ("genre", PyVal.str "Lập trình"),
   ("category", PyVal.str "Lập trình"),
   ("book_title_in_db", PyVal.str "Lập trình Python cơ bản")]

/-- A fully resolved snapshot for the confirmation template. -/
def c9WitnessSlots : Slots :=
  [("book_title", PyVal.str "Đắc Nhân Tâm"),
   ("quantity", PyVal.int 2),
   ("customer_name", PyVal.str "Nam"),
   ("phone", PyVal.str "0901234567"),
   ("address", PyVal.str "Hà Nội"),
   ("book_id", PyVal.int 7),
   ("author", PyVal.str "Dale Carnegie"),
   ("genre", PyVal.str "Self-help"),
   ("category", PyVal.str "Kỹ năng sống"),
   ("book_title_in_db", PyVal.str "Đắc Nhân Tâm")]

/-- A snapshot outside the shapes the graph's nodes produce: a
present-but-empty `availability` slot inserted before a missing personal
field. -/
def c10BadSlots : Slots :=
  [("availability", PyVal.str ""),
   ("address", PyVal.null),
   ("book_title", PyVal.str "Đắc Nhân Tâm"),
   ("quantity", PyVal.int 1),
   ("customer_name", PyVal.str "Nam"),
   ("phone", PyVal.str "0901234567")]

/-- Extractor result for the safety witness: title known, personal
details still missing. -/
def c10WitnessInfo : OrderInfo := ⟨some "Đắc Nhân Tâm", 1, none, none, none⟩

/-- A producible snapshot on which the policy asks a follow-up question. -/
def c10WitnessSlots : Slots := extract_info runInitOrderInfo c10WitnessInfo

/- ------------------------------------------------------------------ -/
/- Helper lemmas about the dict embedding and the routing functions.  -/
/- ------------------------------------------------------------------ -/

theorem dlookup_dset_self (s : Slots) (k : String) (v : PyVal) :
    dlookup (dset s k v) k = some v := by
  induction s with
  | nil => simp [dset, dlookup]
  | cons kv rest ih =>
    by_cases h : kv.1 = k
    · simp [dset, h, dlookup]
    · simp [dset, h, dlookup, ih]

theorem dlookup_dset_ne (s : Slots) (k k' : String) (v : PyVal) (h : k' ≠ k) :
    dlookup (dset s k v) k' = dlookup s k' := by
  have hne : ¬ k = k' := fun he => h he.symm
  induction s with
  | nil => simp [dset, dlookup, hne]
  | cons kv rest ih =>
    by_cases hk : kv.1 = k
    · simp [dset, hk, dlookup, hne]
    · simp [dset, hk, dlookup, ih]

theorem missing_fields_cons (kv : String × PyVal) (l : Slots) :
    missing_fields (kv :: l) =
      if isMissingVal kv.2 = true then kv.1 :: missing_fields l
      else missing_fields l := by
  simp only [missing_fields, List.filter_cons]
  split <;> simp_all

theorem mem_missing_of_dlookup {s : Slots} {f : String} {v : PyVal}
    (hl : dlookup s f = some v) (hm : isMissingVal v = true) :
    f ∈ missing_fields s := by
  induction s with
  | nil => simp [dlookup] at hl
  | cons kv rest ih =>
    rw [missing_fields_cons]
    by_cases h : kv.1 = f
    · simp only [dlookup] at hl
      rw [if_pos h] at hl
      injection hl with hv
      rw [if_pos (hv.symm ▸ hm), h]
      exact List.mem_cons_self _ _
    · simp only [dlookup, h, if_neg h] at hl
      by_cases hkv : isMissingVal kv.2 = true
      · rw [if_pos hkv]
        exact List.mem_cons_of_mem _ (ih hl)
      · rw [if_neg hkv]
        exact ih hl

theorem dlookup_of_mem_nodup {s : Slots} {f : String} {v : PyVal}
    (hmem : (f, v) ∈ s) (hnd : (s.map Prod.fst).Nodup) :
    dlookup s f = some v := by
  induction s with
  | nil => simp at hmem
  | cons kv rest ih =>
    simp only [List.map_cons, List.nodup_cons] at hnd
    rcases List.mem_cons.mp hmem with h | h
    · simp [dlookup, ← h]
    · have hne : kv.1 ≠ f := by
        intro he
        exact hnd.1 (he ▸ (List.mem_map.mpr ⟨(f, v), h, rfl⟩))
      simp [dlookup, hne, ih h hnd.2]

theorem missing_mem_iff {s : Slots} {f : String}
    (hnd : (s.map Prod.fst).Nodup) :
    f ∈ missing_fields s ↔ ∃ v, dlookup s f = some v ∧ isMissingVal v = true := by
  constructor
  · intro h
    simp only [missing_fields, List.mem_map, List.mem_filter] at h
    rcases h with ⟨kv, ⟨hmem, hmiss⟩, hfst⟩
    exact ⟨kv.2, dlookup_of_mem_nodup (by rwa [show (f, kv.2) = kv from Prod.ext hfst.symm rfl]) hnd, hmiss⟩
  · rintro ⟨v, hl, hm⟩
    exact mem_missing_of_dlookup hl hm

theorem check_eq_search_of_missing {s : Slots} {f : String}
    (hf : f ∈ search_fields) (hm : f ∈ missing_fields s) :
    check_missing_info s = "search_book_info" := by
  have hany : search_fields.any (fun g => (missing_fields s).contains g) = true := by
    simp only [List.any_eq_true]
    exact ⟨f, hf, by simpa using hm⟩
  simp only [check_missing_info]
  rw [if_pos hany]

theorem check_follow_up_inv {s : Slots}
    (h : check_missing_info s = "follow_up_question") :
    (∃ f ∈ personal_info_fields, f ∈ missing_fields s) ∧
      ∀ f ∈ search_fields, f ∉ missing_fields s := by
  simp only [check_missing_info] at h
  by_cases hA : search_fields.any (fun g => (missing_fields s).contains g) = true
  · rw [if_pos hA] at h
    exact absurd h (by decide)
  · by_cases hB : personal_info_fields.any (fun g => (missing_fields s).contains g) = true
    · refine ⟨?_, ?_⟩
      · simpa using List.any_eq_true.mp hB
      · intro f hf hm
        exact hA (List.any_eq_true.mpr ⟨f, hf, by simpa using hm⟩)
    · rw [if_neg hA, if_neg hB] at h
      exact absurd h (by decide)

theorem missing_fields_sub_keys {s : Slots} {f : String}
    (h : f ∈ missing_fields s) : f ∈ s.map Prod.fst := by
  simp only [missing_fields, List.mem_map, List.mem_filter] at h
  rcases h with ⟨kv, ⟨hmem, _⟩, hfst⟩
  exact List.mem_map.mpr ⟨kv, hmem, hfst⟩

theorem question_map_isSome {f : String} (h : f ∈ extractor_fields) :
    (dlookup question_map f).isSome = true := by
  rcases (by simpa [extractor_fields] using h : f = "book_title" ∨ f = "quantity" ∨
      f = "customer_name" ∨ f = "phone" ∨ f = "address") with h | h | h | h | h <;>
    subst h <;> decide

theorem follow_up_isSome_of {s : Slots}
    (hsub : ∀ f ∈ missing_fields s, f ∈ extractor_fields)
    (hne : missing_fields s ≠ []) :
    (follow_up_question s).isSome = true := by
  unfold follow_up_question
  by_cases hd : disambigApplies s = true
  · simp [hd]
  · simp only [Bool.not_eq_true] at hd
    cases hm : missing_fields s with
    | nil => exact absurd hm hne
    | cons f rest =>
      have hf : f ∈ extractor_fields := hsub f (hm ▸ List.mem_cons_self f rest)
      simp [hd, hm, question_map_isSome hf]

theorem search_book_info_book_id (s : Slots) (bs : List Book) :
    dlookup (search_book_info s bs) "book_id" = some PyVal.null := by
  cases bs with
  | nil =>
    simp [search_book_info, search_book_func, dlookup_dset_ne, dlookup_dset_self]
  | cons bk rest =>
    have hid : bget (mkBookData bk) "id" = PyVal.null := by
      simp [bget, mkBookData, dlookup]
    simp [search_book_info, search_book_func, hid,
      dlookup_dset_ne, dlookup_dset_self]

theorem check_after_search (s : Slots) (bs : List Book) :
    check_missing_info (search_book_info s bs) = "search_book_info" :=
  check_eq_search_of_missing (by simp [search_fields])
    (mem_missing_of_dlookup (search_book_info_book_id s bs) (by decide))

theorem missing_fields_orderInfoDict_sub {r : OrderInfo} {f : String}
    (h : f ∈ missing_fields (orderInfoDict r)) : f ∈ extractor_fields := by
  have := missing_fields_sub_keys h
  simpa [orderInfoDict, extractor_fields] using this

theorem missing_fields_dset_congr (s : Slots) (f : String) (v1 v2 : PyVal)
    (h1 : isMissingVal v1 = true) (h2 : isMissingVal v2 = true) :
    missing_fields (dset s f v1) = missing_fields (dset s f v2) := by
  induction s with
  | nil => simp [dset, missing_fields_cons, h1, h2, missing_fields]
  | cons kv rest ih =>
    by_cases hk : kv.1 = f
    · simp [dset, hk, missing_fields_cons, h1, h2]
    · simp only [dset, if_neg hk]
      rw [missing_fields_cons, missing_fields_cons, ih]

theorem check_missing_info_dset_congr (s : Slots) (f : String) (v1 v2 : PyVal)
    (h1 : isMissingVal v1 = true) (h2 : isMissingVal v2 = true) :
    check_missing_info (dset s f v1) = check_missing_info (dset s f v2) := by
  simp only [check_missing_info, missing_fields_dset_congr s f v1 v2 h1 h2]

/- ------------------------------------------------------------------ -/
/- Claim theorems.                                                    -/
/- ------------------------------------------------------------------ -/

/-- C1 (counterexample): the claim fails when a search field is absent as
a dict key.  Right after `extract_info` replaces the snapshot with a fully
filled extraction result, every search field is absent from the dict
(`book_id` looks up to `none`), yet `check_missing_info` returns
`confirm_order`, not `search_book_info`: the missing-field loop only
iterates over keys present in the dict, so key-absent search fields are
invisible to it. -/
theorem c1_absent_search_field_counterexample :
    dlookup c1CounterSlots "book_id" = none ∧
    dlookup c1CounterSlots "book_title_in_db" = none ∧
    check_missing_info c1CounterSlots = "confirm_order" := by
  exact ⟨by decide, by decide, by decide⟩

/-- C1 (amended): for every snapshot in which some search field is present
with a missing-marker value (`None`, `""` or `"None"`),
`check_missing_info` returns `search_book_info`, regardless of the state
of the personal fields — search fields take strict priority.  (A search
field wholly absent from the dict is not detected.) -/
theorem c1_sentinel_search_field_routes_to_search
    (s : Slots) (f : String) (v : PyVal)
    (hf : f ∈ search_fields) (hl : dlookup s f = some v)
    (hv : isMissingVal v = true) :
    check_missing_info s = "search_book_info" :=
  check_eq_search_of_missing hf (mem_missing_of_dlookup hl hv)

/-- C1 (witness): the amended theorem applied to the `run` initializer,
whose `book_id` is present and `None`. -/
theorem c1_sentinel_search_field_routes_to_search_witness :
    check_missing_info runInitOrderInfo = "search_book_info" :=
  c1_sentinel_search_field_routes_to_search runInitOrderInfo "book_id"
    PyVal.null (by decide) (by decide) (by decide)

/-- C2 (code bug, evaluated): `search_book_func` keys each record's id as
`"book_id"` and includes no `"genre"` key, but `search_book_info` reads
`book.get("id")` and `book.get("genre")`.  So on a successful lookup the
code stores `None` into both `book_id` and `genre` (while `author`,
`category`, `availability` and `book_title_in_db` do receive the first
record's values), the snapshot stays unresolved, and the policy routes
back to `search_book_info` forever. -/
theorem c2_successful_lookup_stores_null_book_id_and_genre :
    dlookup (search_book_info c2Slots [c2Book]) "book_id" = some PyVal.null ∧
    dlookup (search_book_info c2Slots [c2Book]) "genre" = some PyVal.null ∧
    dlookup (search_book_info c2Slots [c2Book]) "author" =
      some (PyVal.str "Nguyễn Văn A") ∧
    dlookup (search_book_info c2Slots [c2Book]) "category" =
      some (PyVal.str "Lập trình") ∧
    dlookup (search_book_info c2Slots [c2Book]) "availability" =
      some (PyVal.str "In Stock") ∧
    dlookup (search_book_info c2Slots [c2Book]) "book_title_in_db" =
      some (PyVal.str "Lập trình Python cơ bản") ∧
    check_missing_info (search_book_info c2Slots [c2Book]) = "search_book_info" := by
  refine ⟨by decide, by decide, by decide, by decide, by decide, by decide, by decide⟩

/-- C3 (counterexample): on an empty lookup the code does not touch
`book_title_in_db` — a previously resolved value survives, so not all
five resolution fields are set to an absent marker. -/
theorem c3_book_title_in_db_left_untouched_counterexample :
    dlookup (search_book_info c3CounterSlots []) "book_title_in_db" =
      some (PyVal.str "Đắc Nhân Tâm") := by
  decide

/-- C3 (amended): when the lookup returns no record, `search_book_info`
explicitly sets four fields — `book_id`, `author`, `genre`, `category` —
to `None`, leaves `book_title_in_db` untouched, and the Missing-Info
Policy still detects the unresolved state (via the `None` `book_id`) and
routes back to search. -/
theorem c3_empty_lookup_sets_four_resolution_fields (s : Slots) :
    dlookup (search_book_info s []) "book_id" = some PyVal.null ∧
    dlookup (search_book_info s []) "author" = some PyVal.null ∧
    dlookup (search_book_info s []) "genre" = some PyVal.null ∧
    dlookup (search_book_info s []) "category" = some PyVal.null ∧
    dlookup (search_book_info s []) "book_title_in_db" =
      dlookup s "book_title_in_db" ∧
    check_missing_info (search_book_info s []) = "search_book_info" := by
  have hred : search_book_info s [] =
      dset (dset (dset (dset s "book_id" PyVal.null) "author" PyVal.null)
        "genre" PyVal.null) "category" PyVal.null := by
    simp [search_book_info, search_book_func]
  refine ⟨?_, ?_, ?_, ?_, ?_, check_after_search s []⟩ <;>
    rw [hred] <;> simp [dlookup_dset_ne, dlookup_dset_self]

/-- C4 (counterexample): the claim fails twice on the code.  First, a
slot field whose value is absent from the snapshot (no key at all) is not
treated as missing: with `book_id` key-absent and every present field
filled, `book_id` is not in the missing list and the routing decision is
`confirm_order`.  Second, the three sentinel forms are not equivalent for
every question decision: two snapshots differing only in whether
`book_title` holds `"None"` or `""` have identical missing lists and both
route to `follow_up_question`, yet emit different questions — the
disambiguation guard tests Python truthiness, under which the string
`"None"` is truthy while `""` (and `None`) are falsy. -/
theorem c4_key_absent_field_counterexample :
    (¬ (("book_id" ∈ missing_fields c4CounterSlots) ↔
        (dlookup c4CounterSlots "book_id" = none ∨
         dlookup c4CounterSlots "book_id" = some PyVal.null ∨
         dlookup c4CounterSlots "book_id" = some (PyVal.str "") ∨
         dlookup c4CounterSlots "book_id" = some (PyVal.str "None"))) ∧
      check_missing_info c4CounterSlots = "confirm_order") ∧
    (missing_fields c4NoneTitleSlots = missing_fields c4EmptyTitleSlots ∧
      check_missing_info c4NoneTitleSlots = "follow_up_question" ∧
      check_missing_info c4EmptyTitleSlots = "follow_up_question" ∧
      follow_up_question c4NoneTitleSlots =
        some "Có phải ý bạn là cuốn \x27Đắc Nhân Tâm\x27 không?" ∧
      follow_up_question c4EmptyTitleSlots =
        some "Bạn muốn đặt mua cuốn sách nào?" ∧
      ¬ follow_up_question c4NoneTitleSlots = follow_up_question c4EmptyTitleSlots) := by
  refine ⟨⟨by decide, by decide⟩,
    by decide, by decide, by decide, by decide, by decide, by decide⟩

/-- C4 (amended): for every snapshot with distinct keys and every field,
the field is in the computed missing list (the identical computation used
by both `check_missing_info` and `follow_up_question`) exactly when it is
present in the snapshot with value `None`, the empty string or the
literal string `"None"`; a field without a key in the snapshot is never
treated as missing.  The three sentinel forms are interchangeable for the
missing-field computation and therefore for `check_missing_info`'s
routing decision: replacing one sentinel value of any field by another
leaves the missing list and the routing decision unchanged.  (They are
not interchangeable for the question decision, because the disambiguation
guard tests truthiness and `"None"` is truthy — see the
counterexample.) -/
theorem c4_present_field_missing_iff_sentinel
    (s : Slots) (f : String) (v1 v2 : PyVal)
    (hnd : (s.map Prod.fst).Nodup)
    (h1 : v1 = PyVal.null ∨ v1 = PyVal.str "" ∨ v1 = PyVal.str "None")
    (h2 : v2 = PyVal.null ∨ v2 = PyVal.str "" ∨ v2 = PyVal.str "None") :
    (f ∈ missing_fields s ↔
      ∃ v, dlookup s f = some v ∧
        (v = PyVal.null ∨ v = PyVal.str "" ∨ v = PyVal.str "None")) ∧
    missing_fields (dset s f v1) = missing_fields (dset s f v2) ∧
    check_missing_info (dset s f v1) = check_missing_info (dset s f v2) := by
  have hb1 : isMissingVal v1 = true := by
    rcases h1 with h | h | h <;> rw [h] <;> decide
  have hb2 : isMissingVal v2 = true := by
    rcases h2 with h | h | h <;> rw [h] <;> decide
  refine ⟨?_, missing_fields_dset_congr s f v1 v2 hb1 hb2,
    check_missing_info_dset_congr s f v1 v2 hb1 hb2⟩
  have h := missing_mem_iff (s := s) (f := f) hnd
  simpa [isMissingVal, Bool.or_eq_true, decide_eq_true_eq, or_assoc] using h

/-- C4 (witness): in a concrete snapshot, all three sentinel forms are
detected as missing, and swapping `customer_name`'s sentinel from `None`
to `""` changes neither the missing list nor the routing decision. -/
theorem c4_present_field_missing_iff_sentinel_witness :
    ("customer_name" ∈ missing_fields c4WitnessSlots) ∧
    ("phone" ∈ missing_fields c4WitnessSlots) ∧
    ("book_title" ∈ missing_fields c4WitnessSlots) ∧
    missing_fields (dset c4WitnessSlots "customer_name" PyVal.null) =
      missing_fields (dset c4WitnessSlots "customer_name" (PyVal.str "")) ∧
    check_missing_info (dset c4WitnessSlots "customer_name" PyVal.null) =
      check_missing_info (dset c4WitnessSlots "customer_name" (PyVal.str "")) := by
  have h := c4_present_field_missing_iff_sentinel c4WitnessSlots
    "customer_name" PyVal.null (PyVal.str "") (by decide)
    (Or.inl rfl) (Or.inr (Or.inl rfl))
  have hp := c4_present_field_missing_iff_sentinel c4WitnessSlots
    "phone" PyVal.null (PyVal.str "") (by decide)
    (Or.inl rfl) (Or.inr (Or.inl rfl))
  have hb := c4_present_field_missing_iff_sentinel c4WitnessSlots
    "book_title" PyVal.null (PyVal.str "") (by decide)
    (Or.inl rfl) (Or.inr (Or.inl rfl))
  exact ⟨h.1.mpr ⟨PyVal.null, by decide, Or.inl rfl⟩,
    hp.1.mpr ⟨PyVal.str "", by decide, Or.inr (Or.inl rfl)⟩,
    hb.1.mpr ⟨PyVal.str "None", by decide, Or.inr (Or.inr rfl)⟩,
    h.2.1, h.2.2⟩

/-- C5 (confirmed): `extract_info` replaces the whole snapshot with the
extractor's output: whatever the prior snapshot held, the result has
exactly the five extractor keys in declaration order, every search field
looks up to nothing, and the five values are the extraction result's. -/
theorem c5_extraction_replaces_whole_snapshot (prior : Slots) (r : OrderInfo) :
    (extract_info prior r).map Prod.fst = extractor_fields ∧
    dlookup (extract_info prior r) "book_id" = none ∧
    dlookup (extract_info prior r) "author" = none ∧
    dlookup (extract_info prior r) "genre" = none ∧
    dlookup (extract_info prior r) "category" = none ∧
    dlookup (extract_info prior r) "book_title_in_db" = none ∧
    dlookup (extract_info prior r) "book_title" = some (optVal r.book_title) ∧
    dlookup (extract_info prior r) "quantity" = some (PyVal.int r.quantity) ∧
    dlookup (extract_info prior r) "customer_name" = some (optVal r.customer_name) ∧
    dlookup (extract_info prior r) "phone" = some (optVal r.phone) ∧
    dlookup (extract_info prior r) "address" = some (optVal r.address) := by
  simp [extract_info, orderInfoDict, dlookup, extractor_fields]

/-- C6 (confirmed, spec-modelled session store): the snapshot a new turn's
run starts from equals the snapshot committed at the end of the session's
previous turn for the same id; an unseen id starts from the default
slots, and an id with committed state starts from exactly that state —
the session is mutated, never re-initialized. -/
theorem c6_snapshot_carried_across_turns
    (store : SessionStore) (id : String) (nodes : Slots → Slots) :
    loadOrCreate (processTurn store id nodes) id = nodes (loadOrCreate store id) ∧
    (store id = none → loadOrCreate store id = runInitOrderInfo) ∧
    (∀ prev, store id = some prev → loadOrCreate store id = prev) := by
  refine ⟨?_, ?_, ?_⟩
  · simp [processTurn, commitSlots, loadOrCreate]
  · intro h
    simp [loadOrCreate, h]
  · intro prev h
    simp [loadOrCreate, h]

/-- C6 (witness): a first turn for an unseen id starts from the default
slots, and the second turn starts from the first turn's committed
snapshot. -/
theorem c6_snapshot_carried_across_turns_witness :
    loadOrCreate (processTurn (fun _ => (none : Option Slots)) "user1" c6Nodes)
      "user1" = c6Nodes runInitOrderInfo := by
  have h := c6_snapshot_carried_across_turns
    (fun _ => (none : Option Slots)) "user1" c6Nodes
  rw [h.1, h.2.1 rfl]

/-- C7 (counterexample): the generator follows the snapshot's insertion
order, not the canonical field order.  In a snapshot where `address`
precedes `phone`, both missing, all search fields resolved and the two
titles equal, the claim demands the `phone` question (first missing in
canonical order {book_title, quantity, customer_name, phone, address});
the code emits the `address` question. -/
theorem c7_insertion_order_counterexample :
    check_missing_info c7CounterSlots = "follow_up_question" ∧
    disambigApplies c7CounterSlots = false ∧
    follow_up_question c7CounterSlots =
      some "Bạn có thể cung cấp địa chỉ giao hàng được không?" ∧
    ¬ follow_up_question c7CounterSlots =
      some "Số điện thoại của bạn là gì?" := by
  refine ⟨by decide, by decide, by decide, by decide⟩

/-- C7 (amended): when the snapshot's keys begin with the five extractor
fields in their canonical order (as every snapshot built by the
extractor does), every later field is non-missing, the disambiguation
case does not apply, and at least one of the five is missing, the
generator emits the fixed-text question of the first missing field in
that order.  In general the code picks the first missing field in dict
insertion order, which coincides with the canonical order exactly for
such snapshots. -/
theorem c7_first_missing_question_in_canonical_shape
    (v1 v2 v3 v4 v5 : PyVal) (rest : List (String × PyVal))
    (hrest : ∀ kv ∈ rest, isMissingVal kv.2 = false)
    (hd : disambigApplies (("book_title", v1) :: ("quantity", v2) ::
      ("customer_name", v3) :: ("phone", v4) :: ("address", v5) :: rest) = false)
    (hm : (isMissingVal v1 || isMissingVal v2 || isMissingVal v3 ||
      isMissingVal v4 || isMissingVal v5) = true) :
    follow_up_question (("book_title", v1) :: ("quantity", v2) ::
      ("customer_name", v3) :: ("phone", v4) :: ("address", v5) :: rest) =
      some (if isMissingVal v1 = true then "Bạn muốn đặt mua cuốn sách nào?"
        else if isMissingVal v2 = true then "Bạn muốn đặt bao nhiêu cuốn?"
        else if isMissingVal v3 = true then "Bạn có thể cho tôi biết tên của bạn được không?"
        else if isMissingVal v4 = true then "Số điện thoại của bạn là gì?"
        else "Bạn có thể cung cấp địa chỉ giao hàng được không?") := by
  have hrest0 : missing_fields rest = [] := by
    simp only [missing_fields]
    rw [List.filter_eq_nil_iff.mpr ?_]
    · rfl
    · intro kv hkv
      simp [hrest kv hkv]
  simp only [follow_up_question]
  rw [if_neg (by simp [hd])]
  rw [missing_fields_cons, missing_fields_cons, missing_fields_cons,
    missing_fields_cons, missing_fields_cons, hrest0]
  cases h1 : isMissingVal v1 <;> cases h2 : isMissingVal v2 <;>
    cases h3 : isMissingVal v3 <;> cases h4 : isMissingVal v4 <;>
    cases h5 : isMissingVal v5 <;>
    simp_all [question_map, dlookup]

/-- C7 (witness): in a canonical-shape snapshot whose first missing field
is `customer_name`, the generator asks for the customer's name. -/
theorem c7_first_missing_question_witness :
    follow_up_question c7WitnessSlots =
      some "Bạn có thể cho tôi biết tên của bạn được không?" := by
  unfold c7WitnessSlots
  rw [c7_first_missing_question_in_canonical_shape _ _ _ _ _ _
    (by decide) (by decide) (by decide)]
  decide

/-- C8 (confirmed): whenever `book_title` and `book_title_in_db` are both
present as non-empty strings and differ (case-sensitive), the generator
emits the disambiguation question quoting `book_title_in_db` — whatever
else the snapshot holds, including missing personal fields. -/
theorem c8_disambiguation_overrides_missing_question
    (s : Slots) (bt btdb : String)
    (h1 : dlookup s "book_title" = some (PyVal.str bt)) (h2 : bt ≠ "")
    (h3 : dlookup s "book_title_in_db" = some (PyVal.str btdb)) (h4 : btdb ≠ "")
    (h5 : bt ≠ btdb) :
    follow_up_question s =
      some ("Có phải ý bạn là cuốn \x27" ++ btdb ++ "\x27 không?") := by
  have hg : disambigApplies s = true := by
    simp [disambigApplies, pyget, h1, h3, truthy, Bool.and_eq_true,
      decide_eq_true_eq, h2, h4, h5]
  simp [follow_up_question, hg, pyget, h3, pyStr]

/-- C8 (witness): with the stored title "Python", the resolved title
"Lập trình Python cơ bản", and all personal fields missing, the
disambiguation question is emitted. -/
theorem c8_disambiguation_overrides_missing_question_witness :
    follow_up_question c8WitnessSlots =
      some "Có phải ý bạn là cuốn \x27Lập trình Python cơ bản\x27 không?" := by
  rw [c8_disambiguation_overrides_missing_question c8WitnessSlots
    "Python" "Lập trình Python cơ bản"
    (by decide) (by decide) (by decide) (by decide) (by decide)]
  rfl

/-- C9 (confirmed): the Confirmation Renderer is a pure template — for a
snapshot carrying the five values, the output is the fixed tagged
payload: the constant template pieces with exactly `book_title`,
`quantity`, `customer_name`, `phone`, `address` spliced in, in that
literal order, values unchanged. -/
theorem c9_confirm_template_fixed_order
    (s : Slots) (b : String) (q : Int) (c p a : String)
    (h1 : dlookup s "book_title" = some (PyVal.str b))
    (h2 : dlookup s "quantity" = some (PyVal.int q))
    (h3 : dlookup s "customer_name" = some (PyVal.str c))
    (h4 : dlookup s "phone" = some (PyVal.str p))
    (h5 : dlookup s "address" = some (PyVal.str a)) :
    confirm_order s = confirmP1 ++ b ++ confirmP2 ++ toString q ++
      confirmP3 ++ c ++ confirmP4 ++ p ++ confirmP5 ++ a ++ confirmP6 := by
  simp [confirm_order, pyget, h1, h2, h3, h4, h5, pyStr]

/-- C9 (witness): the template applied to a fully resolved snapshot with
quantity 2. -/
theorem c9_confirm_template_fixed_order_witness :
    confirm_order c9WitnessSlots = confirmP1 ++ "Đắc Nhân Tâm" ++ confirmP2 ++
      "2" ++ confirmP3 ++ "Nam" ++ confirmP4 ++ "0901234567" ++ confirmP5 ++
      "Hà Nội" ++ confirmP6 := by
  rw [c9_confirm_template_fixed_order c9WitnessSlots
    "Đắc Nhân Tâm" 2 "Nam" "0901234567" "Hà Nội"
    (by decide) (by decide) (by decide) (by decide) (by decide)]
  rfl

/-- C10 (confirmed): on every snapshot the graph's own nodes can produce
(the `run` initializer, extractor replacements, and `search_book_info`
writes), if `check_missing_info` answers `follow_up_question` then the
generator's list indexing and table lookup cannot fail — the missing
list is non-empty and its head is a `question_map` key; and outside those
shapes the lookup can fail, e.g. on a present-but-empty `availability`
slot inserted before a missing personal field. -/
theorem c10_follow_up_lookup_safe_on_producible_snapshots :
    (∀ s, ReachableSlots s → check_missing_info s = "follow_up_question" →
      (follow_up_question s).isSome = true) ∧
    (check_missing_info c10BadSlots = "follow_up_question" ∧
      follow_up_question c10BadSlots = none) := by
  constructor
  · intro s hs
    induction hs with
    | init =>
      intro h
      exact absurd h (by decide)
    | extract s0 r hs0 ih =>
      intro h
      have hsub : ∀ f ∈ missing_fields (extract_info s0 r), f ∈ extractor_fields :=
        fun f hf => missing_fields_orderInfoDict_sub hf
      have hne : missing_fields (extract_info s0 r) ≠ [] := by
        rcases (check_follow_up_inv h).1 with ⟨f, _, hfm⟩
        intro hnil
        rw [hnil] at hfm
        simp at hfm
      exact follow_up_isSome_of hsub hne
    | search s0 bs hs0 ih =>
      intro h
      rw [check_after_search] at h
      exact absurd h (by decide)
  · exact ⟨by decide, by decide⟩

/-- C10 (witness): the safety statement applied to a producible snapshot
(extraction of a known title with personal details still missing) on
which the policy answers `follow_up_question`. -/
theorem c10_follow_up_lookup_safe_witness :
    (follow_up_question c10WitnessSlots).isSome = true :=
  c10_follow_up_lookup_safe_on_producible_snapshots.1 c10WitnessSlots
    (ReachableSlots.extract runInitOrderInfo c10WitnessInfo ReachableSlots.init)
    (by decide)

end Goline
